import Mathlib

/-!
Verification of the transaction extraction/normalization pipeline and the
anomaly-detection and forecasting passes of the personal-finance data
platform.

The embedding follows the source:
* `fndataops/ingest/scripts/extractors/base_extractor.py`
  (`standardize_amount`, `standardize_date`, `standardize_currency`,
  `detect_channel`, `generate_txn_id`, `transform`),
* `fndataops/ingest/scripts/extractors/csv_extractor.py` (`extract`),
* `fndataops/orchestration/dags/fin_dataops_dag.py`
  (`run_anomaly_detect`, `run_forecasts`).

Modelling conventions:
* Python floats are idealized as exact rationals (`ℚ`); float comparisons
  against a square root (numpy z-scores) are decided exactly by comparing
  squares, with bridging lemmas over `ℝ` showing the squared comparison is
  equivalent to the source's square-root formulation.
* Library calls that this repository does not define — `hashlib.sha256`,
  Python `float()` string parsing, `datetime.strptime`/`pd.to_datetime`,
  and `numpy`'s floating square root — enter the model as explicit function
  parameters; every theorem quantifies over them (or constrains them only
  at the values actually reached, e.g. `sqrt 0 = 0`).
* A pandas cell is a `Value`: missing (`NaN`/`None`), a string, or a number.
* A `datetime` value is represented by its ISO-format string, which is the
  only use the modelled code makes of it.
-/

/-- A pandas cell: missing (`NaN`/`None`), a string, or a numeric value. -/
inductive Value where
  | na : Value
  | str : String → Value
  | num : ℚ → Value
deriving DecidableEq, Repr

/-- `str(value)` for a cell, as applied by `.astype(str)` / `str(...)`. -/
def Value.toStr : Value → String
  | .na => "nan"
  | .str s => s
  | .num q => toString q

/-- A `datetime` value, represented by its ISO-format string. -/
abbrev DateTime := String

/-- Python `str.strip()`: drop leading and trailing whitespace. -/
def strTrim (s : String) : String :=
  ⟨((s.data.dropWhile (·.isWhitespace)).reverse.dropWhile (·.isWhitespace)).reverse⟩

/-- Python `str.upper()` (ASCII case mapping suffices for the modelled data). -/
def strUpper (s : String) : String := ⟨s.data.map Char.toUpper⟩

/-- Python `str.lower()` (ASCII case mapping suffices for the modelled data). -/
def strLower (s : String) : String := ⟨s.data.map Char.toLower⟩

/-- Python `str.replace(c, '')` for a one-character pattern: remove every
occurrence of the character. -/
def removeChar (c : Char) (s : String) : String := ⟨s.data.filter (· ≠ c)⟩

/-- Round-half-to-even on rationals, idealizing Python's `round` on floats. -/
def roundHalfEven (x : ℚ) : ℤ :=
  let f := ⌊x⌋
  let r := x - f
  if r < 1/2 then f
  else if 1/2 < r then f + 1
  else if f % 2 = 0 then f else f + 1

/-- Python `round(x, 2)`: two-decimal rounding, half to even. -/
def round2 (x : ℚ) : ℚ := (roundHalfEven (x * 100) : ℚ) / 100

/-- `BaseExtractor.standardize_amount`.  `floatParse` models Python
`float()` on a string (`none` = `ValueError`).  Missing cells yield `0.0`;
string cells are stripped of `$`, `,` and whitespace then parsed, with
parse failure yielding `0.0`; when `is_credit` is set, positive parsed
values are negated; the result is rounded to two decimals. -/
def standardize_amount (floatParse : String → Option ℚ)
    (amount : Value) (is_credit : Bool) : ℚ :=
  match amount with
  | .na => 0
  | .num q =>
      let q := if is_credit ∧ 0 < q then -q else q
      round2 q
  | .str s =>
      match floatParse (strTrim (removeChar ',' (removeChar '$' s))) with
      | none => 0
      | some q =>
          let q := if is_credit ∧ 0 < q then -q else q
          round2 q

/-- `BaseExtractor.standardize_date`.  `dateParse` models the chain of
`datetime.strptime` format attempts followed by the `pd.to_datetime`
fallback on a string cell; `numParse` models `pd.to_datetime` applied to a
non-string cell (the source's `else` branch, which typically parses a
numeric as an epoch timestamp).  In either case `none` models the `None`
returned when the library parse raises; missing cells yield `None`. -/
def standardize_date (dateParse : String → Option DateTime)
    (numParse : ℚ → Option DateTime) (date_input : Value) :
    Option DateTime :=
  match date_input with
  | .na => none
  | .str s => dateParse s
  | .num q => numParse q

/-- The fixed currency lookup table of `standardize_currency`. -/
def currency_map : List (String × String) :=
  [("US", "USD"), ("USA", "USD"), ("DOLLAR", "USD"), ("$", "USD"),
   ("EURO", "EUR"), ("EU", "EUR"), ("€", "EUR"),
   ("POUND", "GBP"), ("UK", "GBP"), ("£", "GBP")]

/-- `BaseExtractor.standardize_currency`: missing cells default to `"USD"`;
otherwise the cell is rendered to a string, trimmed and upper-cased, and
looked up in `currency_map`, the lookup defaulting to the (trimmed,
upper-cased) input itself. -/
def standardize_currency (currency : Value) : String :=
  match currency with
  | .na => "USD"
  | v =>
      let s := strUpper (strTrim v.toStr)
      ((currency_map.lookup s).getD s)

/-- Keyword containment used by `detect_channel` (`word in description`). -/
def containsWord (description word : String) : Bool :=
  decide (word.data <:+: description.data)

/-- `BaseExtractor.detect_channel`: priority-ordered keyword match. -/
def detect_channel (description : String) : String :=
  if description = "" then "unknown"
  else
    let d := strLower description
    if ["pos", "point of sale", "debit"].any (containsWord d) then "pos"
    else if ["online", "ecommerce", "web"].any (containsWord d) then "ecom"
    else if ["ach", "transfer", "wire"].any (containsWord d) then "ach"
    else if ["zelle", "venmo", "paypal"].any (containsWord d) then "zelle"
    else if ["atm", "withdrawal"].any (containsWord d) then "atm"
    else "unknown"

/-- `BaseExtractor.generate_txn_id`.  `sha256` models `hashlib.sha256`
(hex digest); the hash input concatenates the ISO date, the amount, the
merchant, the description and the institution, exactly in source order. -/
def generate_txn_id (sha256 : String → String) (institution : String)
    (posted_at : DateTime) (amount : ℚ)
    (merchant description : String) : String :=
  sha256 (posted_at ++ toString amount ++ merchant ++ description ++ institution)

/-- Text cleaning applied to `merchant_raw`/`description` in
`CSVExtractor.extract`: `fillna('').astype(str).str.strip()`. -/
def cleanText : Value → String
  | .na => ""
  | v => strTrim v.toStr

/-- A raw tabular source file: column labels plus rows of cells, each row
aligned with the column list. -/
structure RawFrame where
  cols : List String
  rows : List (List Value)

/-- `df.rename(columns=mapping)`: a column named in the mapping is renamed,
all other columns are kept. -/
def renameCols (column_mapping : List (String × String))
    (cols : List String) : List String :=
  cols.map fun c => (column_mapping.lookup c).getD c

/-- Cell access by column label (first matching column; missing column or
short row reads as missing). -/
def getCell (cols : List String) (row : List Value) (name : String) : Value :=
  match cols.indexOf? name with
  | some i => row.getD i .na
  | none => .na

/-- The required canonical fields checked by `CSVExtractor.extract` (and by
`BaseExtractor.transform`). -/
def required_columns : List String :=
  ["posted_at", "amount", "merchant_raw", "description"]

/-- The batch-fatal error of the extraction stage: a required canonical
field is missing after mapping (`ValueError` in the source, the
**StructuralError** of the design taxonomy). -/
inductive ExtractError where
  | structural (missing : List String) : ExtractError
deriving DecidableEq, Repr

/-- A canonical record emitted by extraction, projected to the four
canonical fields the extractor standardizes. -/
structure OutRow where
  posted_at : DateTime
  amount : ℚ
  merchant_raw : String
  description : String
deriving DecidableEq, Repr

/-- Per-row processing of `CSVExtractor.extract`: standardize the date and
amount, clean merchant/description, then apply the two row filters
(`dropna(subset=['posted_at','amount'])` and `df['amount'] != 0`). -/
def csv_extract_row (dateParse : String → Option DateTime)
    (numParse : ℚ → Option DateTime)
    (floatParse : String → Option ℚ) (cols : List String)
    (is_credit : Bool) (row : List Value) : Option OutRow :=
  let posted := standardize_date dateParse numParse
    (getCell cols row "posted_at")
  let amt := standardize_amount floatParse (getCell cols row "amount") is_credit
  let merchant := cleanText (getCell cols row "merchant_raw")
  let desc := cleanText (getCell cols row "description")
  match posted with
  | none => none
  | some d => if amt = 0 then none else some ⟨d, amt, merchant, desc⟩

/-- `CSVExtractor.extract`: rename columns per the institution mapping,
abort the whole batch with a structural error if a required canonical
column is missing after mapping, otherwise standardize and filter each row
independently. -/
def csv_extract (dateParse : String → Option DateTime)
    (numParse : ℚ → Option DateTime)
    (floatParse : String → Option ℚ)
    (column_mapping : List (String × String)) (is_credit : Bool)
    (rf : RawFrame) : Except ExtractError (List OutRow) :=
  let cols := renameCols column_mapping rf.cols
  let missing := required_columns.filter fun c => !(cols.contains c)
  if missing = [] then
    .ok (rf.rows.filterMap
      (csv_extract_row dateParse numParse floatParse cols is_credit))
  else
    .error (.structural missing)

/-- The input of `BaseExtractor.transform`: an extracted row together with
its (possibly missing) raw currency cell. -/
structure CanonRow where
  posted_at : DateTime
  amount : ℚ
  merchant_raw : String
  description : String
  currency : Value

/-- A fully transformed canonical transaction record. -/
structure TxnRecord where
  posted_at : DateTime
  amount : ℚ
  merchant_raw : String
  description : String
  institution : String
  currency : String
  channel : String
  txn_id : String
  import_batch_id : String
  created_at : DateTime

/-- `BaseExtractor.transform`: stamps the institution, standardizes
currency, detects the channel, generates the deterministic transaction id,
and stamps the time-dependent batch metadata.  `now` models the
`datetime.now()` wall-clock reads (batch-id timestamp and `created_at`),
the only time-dependent inputs of the function. -/
def transform (sha256 : String → String) (institution : String)
    (now : String) (rows : List CanonRow) : List TxnRecord :=
  rows.map fun r =>
    { posted_at := r.posted_at
      amount := r.amount
      merchant_raw := r.merchant_raw
      description := r.description
      institution := institution
      currency := standardize_currency r.currency
      channel := detect_channel r.description
      txn_id := generate_txn_id sha256 institution r.posted_at r.amount
          r.merchant_raw r.description
      import_batch_id := institution ++ "_" ++ now
      created_at := now }

/-- A staged transaction as read back by the anomaly detector
(`staging.transactions`); `posted_at` is a calendar date in days. -/
structure StoreTxn where
  txn_id : String
  merchant_norm : String
  category_norm : String
  amount : ℚ
  abs_amount : ℚ
  posted_at : ℤ
deriving DecidableEq, Repr

/-- A row of `marts.mart_anomalies` as produced by `run_anomaly_detect`. -/
structure AnomalyRow where
  txn_id : String
  anomaly_type : String
  severity : String
  driver : String
  remediation_hint : String
deriving DecidableEq, Repr

/-- `np.mean`. -/
def listMean (xs : List ℚ) : ℚ := xs.sum / xs.length

/-- Population variance; `np.std` is its floating-point square root
(`ddof = 0`). -/
def popVar (xs : List ℚ) : ℚ :=
  ((xs.map fun x => (x - listMean xs) ^ 2).sum) / xs.length

/-- The trailing-window query of `run_anomaly_detect`: expenses
(`amount < 0`) posted in the last 30 days. -/
def trailingWindow (store : List StoreTxn) (today : ℤ) : List StoreTxn :=
  store.filter fun t => decide (t.amount < 0 ∧ today - 30 ≤ t.posted_at)

/-- The comparison query of the novel-merchant pass: the distinct merchants
of every transaction posted strictly before the trailing window — the query
has no lower date bound and no expense filter. -/
def lookbackMerchants (store : List StoreTxn) (today : ℤ) : List String :=
  ((store.filter fun t => decide (t.posted_at < today - 30)).map
    (·.merchant_norm)).dedup

/-- The statistical-outlier pass of `run_anomaly_detect` for one category:
skip when fewer than 3 observations; compute mean and population standard
deviation of the absolute amounts; skip when the deviation is zero; flag
each observation with z-score above 2, severity High above 3 else Medium.
The float comparisons `z > 2` and `z > 3` (with `z = |x − mean| / std`,
`std = √variance`) are decided exactly on rationals by comparing
`(x − mean)²` with `4·variance` and `9·variance`. -/
def statOutliersFor (cat : List StoreTxn) : List AnomalyRow :=
  if cat.length < 3 then []
  else
    let amounts := cat.map (·.abs_amount)
    let μ := listMean amounts
    let v := popVar amounts
    if 0 < v then
      (cat.filter fun t => decide (4 * v < (t.abs_amount - μ) ^ 2)).map fun t =>
        { txn_id := t.txn_id
          anomaly_type := "Statistical Outlier"
          severity :=
            if 9 * v < (t.abs_amount - μ) ^ 2 then "High" else "Medium"
          driver := "Z-score outlier"
          remediation_hint := "Verify transaction amount and necessity" }
    else []

/-- The statistical pass over every distinct category of the trailing
window. -/
def statisticalPass (df : List StoreTxn) : List AnomalyRow :=
  ((df.map (·.category_norm)).dedup).flatMap fun c =>
    statOutliersFor (df.filter fun t => t.category_norm = c)

/-- The novel-merchant pass of `run_anomaly_detect`: every trailing-window
transaction whose merchant is absent from the lookback merchant set is
flagged Novel Merchant, severity Medium, once per transaction. -/
def novelMerchantPass (df : List StoreTxn) (lookback : List String) :
    List AnomalyRow :=
  let recent := (df.map (·.merchant_norm)).dedup
  let novel := recent.filter fun m => !(lookback.contains m)
  novel.flatMap fun m =>
    (df.filter fun t => t.merchant_norm = m).map fun t =>
      { txn_id := t.txn_id
        anomaly_type := "Novel Merchant"
        severity := "Medium"
        driver := "Merchant not seen in last 90 days"
        remediation_hint := "Review transaction and categorize appropriately" }

/-- `run_anomaly_detect`, as a function of the staged transaction store and
the current date: read the trailing window, return nothing when it is
empty, else run the statistical and novel-merchant passes. -/
def run_anomaly_detect (store : List StoreTxn) (today : ℤ) :
    List AnomalyRow :=
  let df := trailingWindow store today
  if df = [] then []
  else statisticalPass df ++ novelMerchantPass df (lookbackMerchants store today)

/-- A row of `marts.mart_forecasts` as produced by `run_forecasts`. -/
structure ForecastRow where
  forecast_amount : ℚ
  lower_bound : ℚ
  upper_bound : ℚ
  confidence_level : ℚ
deriving DecidableEq, Repr

/-- The per-category forecast of `run_forecasts` at one horizon (months
ahead).  `amounts` is the category's monthly expense-total history, oldest
first; categories with fewer than 2 monthly observations are skipped.
`sqrtFn` models `np.std`'s floating square root applied to the exact
population variance; the `else` arm (±10 % of the first value) is the
source's degenerate-variance fallback for single-point series. -/
def forecastCat (sqrtFn : ℚ → ℚ) (amounts : List ℚ) (horizon : ℕ) :
    Option ForecastRow :=
  if amounts.length < 2 then none
  else
    let first := amounts.headD 0
    let last := amounts.getLastD 0
    let trend := (last - first) / ((amounts.length : ℚ) - 1)
    let forecast_amount := last + trend * (horizon : ℚ)
    let volatility :=
      if 1 < amounts.length then sqrtFn (popVar amounts)
      else first * (1 / 10)
    some
      { forecast_amount := max 0 forecast_amount
        lower_bound := max 0 (forecast_amount - volatility)
        upper_bound := forecast_amount + volatility
        confidence_level := 8 / 10 }

/-! ## General lemmas -/

theorem roundHalfEven_nonpos {x : ℚ} (hx : x ≤ 0) : roundHalfEven x ≤ 0 := by
  have hfx : ((⌊x⌋ : ℚ)) ≤ x := Int.floor_le x
  have hf0 : ⌊x⌋ ≤ 0 := Int.floor_nonpos hx
  have key : ¬(x - (⌊x⌋ : ℚ) < 1 / 2) → ⌊x⌋ + 1 ≤ 0 := by
    intro h
    have h2 : (1 : ℚ) / 2 ≤ x - (⌊x⌋ : ℚ) := le_of_not_lt h
    have h3 : ((⌊x⌋ : ℚ)) < 0 := by linarith
    have h4 : ⌊x⌋ < 0 := by exact_mod_cast h3
    omega
  show (if x - (⌊x⌋ : ℚ) < 1 / 2 then ⌊x⌋
    else if 1 / 2 < x - (⌊x⌋ : ℚ) then ⌊x⌋ + 1
    else if ⌊x⌋ % 2 = 0 then ⌊x⌋ else ⌊x⌋ + 1) ≤ 0
  split_ifs with h1 h2 h3
  · exact hf0
  · exact key h1
  · exact hf0
  · exact key h1

theorem round2_nonpos {x : ℚ} (hx : x ≤ 0) : round2 x ≤ 0 := by
  have h : roundHalfEven (x * 100) ≤ 0 := roundHalfEven_nonpos (by linarith)
  have h' : ((roundHalfEven (x * 100) : ℤ) : ℚ) ≤ 0 := by exact_mod_cast h
  unfold round2
  exact div_nonpos_iff.2 (Or.inr ⟨h', by norm_num⟩)

/-! ## Claim theorems -/

/-- C10: with the credit-sign flag set, `standardize_amount` never returns
a positive number: missing or unparseable amounts yield `0.0`, positive
parsed amounts are negated, and non-positive parsed amounts are returned
unchanged up to two-decimal rounding. -/
theorem c10_credit_flag_never_positive (floatParse : String → Option ℚ) :
    (∀ v : Value, standardize_amount floatParse v true ≤ 0) ∧
    standardize_amount floatParse Value.na true = 0 ∧
    (∀ s : String,
      floatParse (strTrim (removeChar ',' (removeChar '$' s))) = none →
      standardize_amount floatParse (Value.str s) true = 0) ∧
    (∀ q : ℚ, 0 < q →
      standardize_amount floatParse (Value.num q) true = round2 (-q)) ∧
    (∀ q : ℚ, q ≤ 0 →
      standardize_amount floatParse (Value.num q) true = round2 q) ∧
    (∀ (s : String) (q : ℚ),
      floatParse (strTrim (removeChar ',' (removeChar '$' s))) = some q →
      standardize_amount floatParse (Value.str s) true =
        round2 (if 0 < q then -q else q)) := by
  have hnum : ∀ q : ℚ, standardize_amount floatParse (Value.num q) true =
      round2 (if 0 < q then -q else q) := by
    intro q
    simp only [standardize_amount, true_and]
  have hval : ∀ q : ℚ, round2 (if 0 < q then -q else q) ≤ 0 := by
    intro q
    split_ifs with h
    · exact round2_nonpos (by linarith)
    · exact round2_nonpos (le_of_not_lt h)
  refine ⟨?_, rfl, ?_, ?_, ?_, ?_⟩
  · intro v
    cases v with
    | na => simp [standardize_amount]
    | num q => rw [hnum]; exact hval q
    | str s =>
      simp only [standardize_amount]
      cases floatParse (strTrim (removeChar ',' (removeChar '$' s))) with
      | none => simp
      | some q =>
        simp only [true_and]
        exact hval q
  · intro s h
    simp [standardize_amount, h]
  · intro q hq
    rw [hnum, if_pos hq]
  · intro q hq
    rw [hnum, if_neg (not_lt.2 hq)]
  · intro s q h
    simp [standardize_amount, h]

/-- Witness for C10 at concrete inputs: a parsed credit amount of `4` is
negated and a missing amount yields `0`. -/
theorem c10_witness :
    standardize_amount (fun _ => some 4) (Value.num 4) true = round2 (-4) ∧
    standardize_amount (fun _ => some 4) Value.na true = 0 ∧
    standardize_amount (fun _ => some 4) (Value.str "$4") true ≤ 0 := by
  refine ⟨(c10_credit_flag_never_positive (fun _ => some 4)).2.2.2.1 4 (by norm_num),
    (c10_credit_flag_never_positive (fun _ => some 4)).2.1,
    (c10_credit_flag_never_positive (fun _ => some 4)).1 (Value.str "$4")⟩

/-- C4 counterexample: the unrecognized currency string `"XYZ"` is returned
unchanged by `standardize_currency`, not defaulted to `"USD"`. -/
theorem c4_counterexample :
    standardize_currency (Value.str "XYZ") = "XYZ" ∧
    standardize_currency (Value.str "XYZ") ≠ "USD" := by
  constructor
  · rfl
  · decide

/-- C4 (amended): an unspecified (missing) currency normalizes to `"USD"`
and recognized symbols/abbreviations map to their ISO code, but an input
not recognized by the lookup table is returned as its own trimmed,
upper-cased form rather than defaulting to `"USD"`. -/
theorem c4_currency_normalization :
    standardize_currency Value.na = "USD" ∧
    (∀ (v : Value) (iso : String),
      currency_map.lookup (strUpper (strTrim v.toStr)) = some iso →
      standardize_currency v = iso) ∧
    (∀ s : String,
      currency_map.lookup (strUpper (strTrim s)) = none →
      standardize_currency (Value.str s) = strUpper (strTrim s)) := by
  refine ⟨rfl, ?_, ?_⟩
  · intro v iso h
    cases v with
    | na =>
      have hnone : currency_map.lookup (strUpper (strTrim Value.na.toStr)) =
          none := by decide
      rw [hnone] at h
      cases h
    | str s =>
      simp only [standardize_currency, Value.toStr] at h ⊢
      simp [h]
    | num q =>
      simp only [standardize_currency, Value.toStr] at h ⊢
      simp [h]
  · intro s h
    simp only [standardize_currency, Value.toStr] at h ⊢
    simp [h]

/-- Witness for C4 at concrete inputs: `" euro "` is recognized and maps to
`"EUR"`; `"jpy"` is unrecognized and comes back as `"JPY"`. -/
theorem c4_witness :
    standardize_currency (Value.str " euro ") = "EUR" ∧
    standardize_currency (Value.str "jpy") = "JPY" := by
  constructor
  · exact c4_currency_normalization.2.1 (Value.str " euro ") "EUR" (by decide)
  · exact (c4_currency_normalization.2.2 "jpy" (by decide)).trans (by decide)

/-- C1: the transaction identity emitted by `transform` is a deterministic
function of exactly the five fields (institution, posted_at, amount,
merchant_raw, description): the identity column equals the row-wise
`generate_txn_id` of those fields, and two runs at different wall-clock
times produce identical identity values row for row. -/
theorem c1_identity_deterministic (sha256 : String → String)
    (institution : String) (now₁ now₂ : String) (rows : List CanonRow) :
    ((transform sha256 institution now₁ rows).map (·.txn_id) =
      rows.map fun r => generate_txn_id sha256 institution r.posted_at
        r.amount r.merchant_raw r.description) ∧
    (transform sha256 institution now₁ rows).map (·.txn_id) =
      (transform sha256 institution now₂ rows).map (·.txn_id) := by
  constructor <;> simp [transform]

/-- C6: when a required canonical field is missing after mapping,
`csv_extract` aborts the whole batch with a structural error before any row
is processed: the result is the batch-fatal error and no output list is
ever produced. -/
theorem c6_structural_error_aborts_batch
    (dateParse : String → Option DateTime)
    (numParse : ℚ → Option DateTime) (floatParse : String → Option ℚ)
    (column_mapping : List (String × String)) (is_credit : Bool)
    (rf : RawFrame)
    (h : ∃ c ∈ required_columns, c ∉ renameCols column_mapping rf.cols) :
    csv_extract dateParse numParse floatParse column_mapping is_credit rf =
      .error (.structural (required_columns.filter
        fun c => !((renameCols column_mapping rf.cols).contains c))) ∧
    ∀ out : List OutRow,
      csv_extract dateParse numParse floatParse column_mapping is_credit rf ≠
        .ok out := by
  obtain ⟨c, hc, hnc⟩ := h
  have hmem : c ∈ required_columns.filter
      fun c => !((renameCols column_mapping rf.cols).contains c) :=
    List.mem_filter.2 ⟨hc, by simpa using hnc⟩
  have hne : required_columns.filter
      (fun c => !((renameCols column_mapping rf.cols).contains c)) ≠ [] := by
    intro hemp
    rw [hemp] at hmem
    exact absurd hmem (List.not_mem_nil c)
  have hres : csv_extract dateParse numParse floatParse column_mapping is_credit rf =
      .error (.structural (required_columns.filter
        fun c => !((renameCols column_mapping rf.cols).contains c))) := by
    simp only [csv_extract]
    rw [if_neg hne]
  exact ⟨hres, fun out => by rw [hres]; exact fun h => Except.noConfusion h⟩

/-- Witness for C6: with an empty mapping and a lone `"Date"` column, all
four required canonical fields are missing and the batch aborts. -/
theorem c6_witness :
    csv_extract (fun _ => none) (fun _ => none) (fun _ => none) [] false
      ⟨["Date"], [[Value.str "x"]]⟩ =
      .error (.structural (required_columns.filter
        fun c => !((renameCols [] ["Date"]).contains c))) :=
  (c6_structural_error_aborts_batch (fun _ => none) (fun _ => none)
    (fun _ => none) [] false ⟨["Date"], [[Value.str "x"]]⟩
    ⟨"posted_at", by decide, by decide⟩).1

/-- C9: every forecast record ever emitted carries a non-negative
`forecast_amount`: the point estimate is floored at zero before being
recorded, for every history, horizon and square-root model. -/
theorem c9_forecast_floor (sqrtFn : ℚ → ℚ) (amounts : List ℚ)
    (horizon : ℕ) (r : ForecastRow)
    (h : forecastCat sqrtFn amounts horizon = some r) :
    0 ≤ r.forecast_amount := by
  simp only [forecastCat] at h
  split at h
  · cases h
  · obtain rfl := Option.some.inj h
    exact le_max_left 0 _

/-- Witness for C9: the history `[1, 2]` at horizon 1 forecasts `3`, which
is non-negative. -/
theorem c9_witness :
    (0 : ℚ) ≤ (ForecastRow.mk 3 (5/2) (7/2) (8/10)).forecast_amount :=
  c9_forecast_floor (fun _ => 1/2) [1, 2] 1 _ (by
    norm_num [forecastCat, popVar, listMean])

theorem getLastD_replicate (n : ℕ) (c d : ℚ) :
    (List.replicate (n + 1) c).getLastD d = c := by
  induction n generalizing d with
  | zero => rfl
  | succ m ih =>
    rw [List.replicate_succ, List.getLastD_cons]
    exact ih c

theorem listMean_replicate (n : ℕ) (c : ℚ) (hn : n ≠ 0) :
    listMean (List.replicate n c) = c := by
  unfold listMean
  rw [List.sum_replicate, List.length_replicate, nsmul_eq_mul]
  have : (n : ℚ) ≠ 0 := Nat.cast_ne_zero.2 hn
  field_simp

theorem popVar_replicate (n : ℕ) (c : ℚ) (hn : n ≠ 0) :
    popVar (List.replicate n c) = 0 := by
  unfold popVar
  rw [listMean_replicate n c hn, List.map_replicate]
  simp

/-- C3 counterexample: the spec's own flat-series example.  A constant
monthly history `[1500, 1500, 1500, 1500]` at horizon 1 forecasts `1500`
with band `[1500, 1500]` — the population standard deviation is `0` and the
±10 % degenerate band `[1350, 1650]` is never produced (that fallback arm
is unreachable for series of length ≥ 2). -/
theorem c3_counterexample :
    forecastCat (fun q => q) [1500, 1500, 1500, 1500] 1 =
      some { forecast_amount := 1500, lower_bound := 1500,
             upper_bound := 1500, confidence_level := 8/10 } ∧
    (1500 : ℚ) ≠ (9/10) * 1500 ∧ (1500 : ℚ) ≠ (11/10) * 1500 := by
  refine ⟨?_, by norm_num, by norm_num⟩
  norm_num [forecastCat, popVar, listMean]

/-- C3 (amended): a constant series of value `c ≥ 0` with at least 2
monthly observations forecasts `c` for every horizon with the band
`[c, c]` (the standard deviation is zero); the ±10 % degenerate band does
not apply, since its fallback arm is unreachable for series that survive
the length-2 skip. -/
theorem c3_flat_series_forecast (sqrtFn : ℚ → ℚ) (hs : sqrtFn 0 = 0)
    (n : ℕ) (hn : 2 ≤ n) (c : ℚ) (hc : 0 ≤ c) (horizon : ℕ) :
    forecastCat sqrtFn (List.replicate n c) horizon =
      some { forecast_amount := c, lower_bound := c, upper_bound := c,
             confidence_level := 8/10 } := by
  obtain ⟨m, rfl⟩ : ∃ m, n = m + 2 := ⟨n - 2, by omega⟩
  have h1 : (List.replicate (m + 2) c).headD 0 = c := by
    rw [List.replicate_succ]; rfl
  have h2 : (List.replicate (m + 2) c).getLastD 0 = c :=
    getLastD_replicate (m + 1) c 0
  have h3 : popVar (List.replicate (m + 2) c) = 0 :=
    popVar_replicate (m + 2) c (by omega)
  simp only [forecastCat, List.length_replicate]
  rw [if_neg (by omega), if_pos (by omega), h1, h2, h3, hs]
  simp [sub_self, max_eq_right hc]

/-- Witness for C3: three constant months of `100` at horizon 2 forecast
`100` with the collapsed band `[100, 100]`. -/
theorem c3_witness :
    forecastCat (fun q => q) (List.replicate 3 (100 : ℚ)) 2 =
      some { forecast_amount := 100, lower_bound := 100, upper_bound := 100,
             confidence_level := 8/10 } :=
  c3_flat_series_forecast (fun q => q) rfl 3 (by norm_num) 100 (by norm_num) 2

/-- The extraction of a single source row with empty merchant/description,
valid date and amount `5.00`, evaluated concretely. -/
theorem csv_extract_empty_merchant_example :
    csv_extract
      (fun s => if s = "2024-01-05" then some "2024-01-05T00:00:00" else none)
      (fun _ => none)
      (fun s => if s = "5.00" then some (5 : ℚ) else none) [] false
      ⟨["posted_at", "amount", "merchant_raw", "description"],
       [[.str "2024-01-05", .str "5.00", .str "   ", .str ""]]⟩ =
      .ok [{ posted_at := "2024-01-05T00:00:00", amount := 5,
             merchant_raw := "", description := "" }] := by
  have hcols : renameCols [] ["posted_at", "amount", "merchant_raw",
      "description"] = ["posted_at", "amount", "merchant_raw",
      "description"] := rfl
  have h1 : strTrim (removeChar ',' (removeChar '$' "5.00")) = "5.00" := by
    decide
  have h2 : strTrim "   " = "" := by decide
  have h3 : strTrim "" = "" := by decide
  have hrow : csv_extract_row
      (fun s => if s = "2024-01-05" then some "2024-01-05T00:00:00" else none)
      (fun _ => none)
      (fun s => if s = "5.00" then some (5 : ℚ) else none)
      ["posted_at", "amount", "merchant_raw", "description"] false
      [.str "2024-01-05", .str "5.00", .str "   ", .str ""] =
      some { posted_at := "2024-01-05T00:00:00", amount := 5,
             merchant_raw := "", description := "" } := by
    simp [csv_extract_row, standardize_date, standardize_amount, getCell,
      cleanText, Value.toStr, h1, h2, h3, List.indexOf?, List.findIdx?]
    norm_num [round2, roundHalfEven, Int.fract]
  simp only [csv_extract]
  rw [if_pos (by decide)]
  rw [hcols]
  simp [hrow]

/-- C8 counterexample: a source row whose merchant and description are
empty after trimming, with a valid date and nonzero amount, is NOT dropped:
extraction emits a record with empty `merchant_raw` and empty
`description`. -/
theorem c8_counterexample :
    csv_extract
      (fun s => if s = "2024-01-05" then some "2024-01-05T00:00:00" else none)
      (fun _ => none)
      (fun s => if s = "5.00" then some (5 : ℚ) else none) [] false
      ⟨["posted_at", "amount", "merchant_raw", "description"],
       [[.str "2024-01-05", .str "5.00", .str "   ", .str ""]]⟩ =
      .ok [{ posted_at := "2024-01-05T00:00:00", amount := 5,
             merchant_raw := "", description := "" }] ∧
    ({ posted_at := "2024-01-05T00:00:00", amount := 5, merchant_raw := "",
       description := "" } : OutRow).merchant_raw = "" :=
  ⟨csv_extract_empty_merchant_example, rfl⟩

/-- C8 (amended): extraction output never contains a record whose amount is
exactly zero (zero and unparseable amounts are dropped), but rows whose
merchant or description is empty after cleaning are retained, not
dropped — the source has no empty-text filter. -/
theorem c8_zero_amounts_dropped (dateParse : String → Option DateTime)
    (numParse : ℚ → Option DateTime) (floatParse : String → Option ℚ)
    (column_mapping : List (String × String)) (is_credit : Bool)
    (rf : RawFrame) (out : List OutRow)
    (h : csv_extract dateParse numParse floatParse column_mapping is_credit
      rf = .ok out) :
    ∀ r ∈ out, r.amount ≠ 0 := by
  simp only [csv_extract] at h
  split at h
  · obtain rfl := Except.ok.inj h
    intro r hr
    obtain ⟨row, _, hrow⟩ := List.mem_filterMap.1 hr
    simp only [csv_extract_row] at hrow
    split at hrow
    · cases hrow
    · split at hrow
      · cases hrow
      · obtain rfl := Option.some.inj hrow
        simpa using ‹¬ _›
  · cases h

/-- Witness for C8: the record emitted for the `5.00` source row has
nonzero amount. -/
theorem c8_witness :
    ({ posted_at := "2024-01-05T00:00:00", amount := (5 : ℚ),
       merchant_raw := "", description := "" } : OutRow).amount ≠ 0 :=
  c8_zero_amounts_dropped
    (fun s => if s = "2024-01-05" then some "2024-01-05T00:00:00" else none)
    (fun _ => none)
    (fun s => if s = "5.00" then some (5 : ℚ) else none) [] false
    ⟨["posted_at", "amount", "merchant_raw", "description"],
     [[.str "2024-01-05", .str "5.00", .str "   ", .str ""]]⟩ _
    csv_extract_empty_merchant_example _ (List.mem_singleton.2 rfl)

/-- C7: a row whose date is unparseable — `standardize_date` returns
`None`, i.e. the cell is missing, or the strptime chain and the
`pd.to_datetime` fallback fail on a string cell, or `pd.to_datetime`
raises on a non-string cell — or whose amount is missing or unparseable,
is alone dropped from the extraction output; every other row of the batch
is processed and emitted exactly as in a batch without the bad row. -/
theorem c7_row_parse_failure_drops_only_that_row
    (dateParse : String → Option DateTime)
    (numParse : ℚ → Option DateTime) (floatParse : String → Option ℚ)
    (column_mapping : List (String × String)) (is_credit : Bool)
    (cols : List String) (pre post : List (List Value)) (bad : List Value)
    (hbad :
      standardize_date dateParse numParse
        (getCell (renameCols column_mapping cols) bad "posted_at") = none ∨
      getCell (renameCols column_mapping cols) bad "amount" = Value.na ∨
      ∃ s, getCell (renameCols column_mapping cols) bad "amount" =
          Value.str s ∧
        floatParse (strTrim (removeChar ',' (removeChar '$' s))) = none) :
    csv_extract dateParse numParse floatParse column_mapping is_credit
        ⟨cols, pre ++ bad :: post⟩ =
      csv_extract dateParse numParse floatParse column_mapping is_credit
        ⟨cols, pre ++ post⟩ := by
  have hrow : csv_extract_row dateParse numParse floatParse
      (renameCols column_mapping cols) is_credit bad = none := by
    rcases hbad with h | h | ⟨s, hs, hp⟩
    · simp [csv_extract_row, h]
    · cases hd : standardize_date dateParse numParse
        (getCell (renameCols column_mapping cols) bad "posted_at") <;>
        simp [csv_extract_row, hd, standardize_amount, h]
    · cases hd : standardize_date dateParse numParse
        (getCell (renameCols column_mapping cols) bad "posted_at") <;>
        simp [csv_extract_row, hd, standardize_amount, hs, hp]
  by_cases hm : required_columns.filter
      (fun c => !((renameCols column_mapping cols).contains c)) = []
  · simp only [csv_extract]
    rw [if_pos hm, if_pos hm]
    simp [List.filterMap_append, hrow]
  · simp only [csv_extract]
    rw [if_neg hm, if_neg hm]

/-- Witness for C7: dropping a row with an unparseable date leaves the good
row's output unchanged. -/
theorem c7_witness :
    csv_extract
      (fun s => if s = "2024-01-05" then some "2024-01-05T00:00:00" else none)
      (fun _ => none)
      (fun s => if s = "5.00" then some (5 : ℚ) else none) [] false
      ⟨["posted_at", "amount", "merchant_raw", "description"],
       [[.str "2024-01-05", .str "5.00", .str "A", .str "B"],
        [.str "garbage", .str "5.00", .str "C", .str "D"]]⟩ =
      csv_extract
        (fun s => if s = "2024-01-05" then some "2024-01-05T00:00:00" else none)
        (fun _ => none)
        (fun s => if s = "5.00" then some (5 : ℚ) else none) [] false
        ⟨["posted_at", "amount", "merchant_raw", "description"],
         [[.str "2024-01-05", .str "5.00", .str "A", .str "B"]]⟩ :=
  c7_row_parse_failure_drops_only_that_row _ _ _ [] false
    ["posted_at", "amount", "merchant_raw", "description"]
    [[.str "2024-01-05", .str "5.00", .str "A", .str "B"]] []
    [.str "garbage", .str "5.00", .str "C", .str "D"]
    (Or.inl (by decide))

theorem countP_flatMap {α β : Type} (p : β → Bool) (f : α → List β)
    (l : List α) :
    List.countP p (l.flatMap f) = (l.map fun a => List.countP p (f a)).sum := by
  induction l with
  | nil => rfl
  | cons a l ih => simp [List.countP_append, ih]

theorem sum_map_single_one {l : List String} (hl : l.Nodup) {m₀ : String}
    (hm : m₀ ∈ l) (g : String → ℕ)
    (hg : ∀ m ∈ l, g m = if m = m₀ then 1 else 0) :
    (l.map g).sum = 1 := by
  induction l with
  | nil => cases hm
  | cons a l ih =>
    have hna := (List.nodup_cons.1 hl).1
    have hnl := (List.nodup_cons.1 hl).2
    rcases List.mem_cons.1 hm with rfl | hm'
    · have hz : ∀ m ∈ l, g m = 0 := by
        intro m hml
        rw [hg m (List.mem_cons_of_mem _ hml)]
        exact if_neg fun (e : m = m₀) => hna (e ▸ hml)
      have hzero : (l.map g).sum = 0 :=
        List.sum_eq_zero fun x hx => by
          obtain ⟨m, hml, rfl⟩ := List.mem_map.1 hx
          exact hz m hml
      have hga : g m₀ = 1 := by
        rw [hg m₀ (List.mem_cons_self m₀ l)]
        simp
      simp [hga, hzero]
    · have ha : g a = 0 := by
        rw [hg a (List.mem_cons_self a l)]
        exact if_neg fun (e : a = m₀) => hna (e ▸ hm')
      simp only [List.map_cons, List.sum_cons, ha, Nat.zero_add]
      exact ih hnl hm' fun m hml => hg m (List.mem_cons_of_mem _ hml)

theorem statOutliersFor_type (cat : List StoreTxn) :
    ∀ a ∈ statOutliersFor cat, a.anomaly_type = "Statistical Outlier" := by
  intro a ha
  simp only [statOutliersFor] at ha
  split at ha
  · cases ha
  · split at ha
    · obtain ⟨u, _, rfl⟩ := List.mem_map.1 ha
      rfl
    · cases ha

theorem statisticalPass_type (df : List StoreTxn) :
    ∀ a ∈ statisticalPass df, a.anomaly_type = "Statistical Outlier" := by
  intro a ha
  simp only [statisticalPass] at ha
  obtain ⟨c, _, hac⟩ := List.mem_flatMap.1 ha
  exact statOutliersFor_type _ a hac

/-- C5 counterexample: merchant `"M"` last transacted 200 days ago, so it
is absent from the prior-90-days window `[-120, -30)`, and it appears in
the trailing 30-day window — the claim demands a `novel_merchant` flag for
transaction `"b"`, yet the detector flags nothing, because its comparison
query spans ALL history before the trailing window, not the prior 90
days. -/
theorem c5_counterexample :
    run_anomaly_detect
      [⟨"a", "M", "X", -5, 5, -200⟩, ⟨"b", "M", "X", -10, 10, 0⟩] 0 = [] ∧
    trailingWindow
      [⟨"a", "M", "X", -5, 5, -200⟩, ⟨"b", "M", "X", -10, 10, 0⟩] 0 =
      [⟨"b", "M", "X", -10, 10, 0⟩] ∧
    ([⟨"a", "M", "X", -5, 5, -200⟩, ⟨"b", "M", "X", -10, 10, 0⟩].filter
      fun t : StoreTxn => decide (-120 ≤ t.posted_at ∧ t.posted_at < -30 ∧
        t.merchant_norm = "M")) = [] := by
  refine ⟨by decide, by decide, by decide⟩

/-- C5 (amended): the comparison set is the merchants of ALL transactions
posted before the trailing window (the query has no 90-day lower bound).
For a trailing-window transaction `t` (with distinct transaction ids in the
window), the detector emits exactly one `novel_merchant` flag for `t` when
`t`'s merchant is absent from that full prior history, and none when the
merchant appears anywhere in it. -/
theorem c5_novel_merchant_flagging (store : List StoreTxn) (today : ℤ)
    (t : StoreTxn)
    (hnodup : ((trailingWindow store today).map (·.txn_id)).Nodup)
    (ht : t ∈ trailingWindow store today) :
    ((run_anomaly_detect store today).filter fun a =>
        a.anomaly_type == "Novel Merchant" && a.txn_id == t.txn_id).length =
      if t.merchant_norm ∈ lookbackMerchants store today then 0 else 1 := by
  classical
  set df := trailingWindow store today with hdf
  set lb := lookbackMerchants store today with hlb
  have hdfne : df ≠ [] := List.ne_nil_of_mem ht
  have hinj : ∀ u ∈ df, u.txn_id = t.txn_id → u = t := fun u hu he =>
    List.inj_on_of_nodup_map hnodup hu ht he
  have hrun : run_anomaly_detect store today =
      statisticalPass df ++ novelMerchantPass df lb := by
    simp only [run_anomaly_detect]
    rw [if_neg hdfne]
  set p : AnomalyRow → Bool := fun a =>
    a.anomaly_type == "Novel Merchant" && a.txn_id == t.txn_id with hp
  have hstat : (statisticalPass df).filter p = [] := by
    rw [List.filter_eq_nil_iff]
    intro a ha
    have := statisticalPass_type df a ha
    simp [hp, this]
  rw [hrun, List.filter_append, hstat, List.nil_append]
  rw [← List.countP_eq_length_filter]
  -- count over the novel-merchant pass
  have hcount : ∀ m : String,
      List.countP p ((df.filter fun u => u.merchant_norm = m).map
        fun u => AnomalyRow.mk u.txn_id "Novel Merchant" "Medium"
          "Merchant not seen in last 90 days"
          "Review transaction and categorize appropriately") =
      List.countP
        (fun u => u.txn_id == t.txn_id && decide (u.merchant_norm = m)) df := by
    intro m
    rw [List.countP_map, List.countP_filter]
    apply List.countP_congr
    intro u _
    simp [hp]
  have hzero : ∀ m : String, m ≠ t.merchant_norm →
      List.countP
        (fun u => u.txn_id == t.txn_id && decide (u.merchant_norm = m)) df =
        0 := by
    intro m hne
    rw [List.countP_eq_zero]
    intro u hu
    simp only [Bool.and_eq_true, beq_iff_eq, decide_eq_true_eq, not_and]
    intro hid hmer
    exact hne ((hinj u hu hid ▸ hmer : t.merchant_norm = m)).symm
  have hone :
      List.countP (fun u => u.txn_id == t.txn_id &&
        decide (u.merchant_norm = t.merchant_norm)) df = 1 := by
    have hcg : List.countP (fun u => u.txn_id == t.txn_id &&
        decide (u.merchant_norm = t.merchant_norm)) df =
        List.countP (fun u => u.txn_id == t.txn_id) df := by
      apply List.countP_congr
      intro u hu
      simp only [Bool.and_eq_true, beq_iff_eq, decide_eq_true_eq,
        and_iff_left_iff_imp]
      intro hid
      rw [hinj u hu hid]
    rw [hcg]
    have : List.countP (fun u => u.txn_id == t.txn_id) df =
        List.count t.txn_id (df.map (·.txn_id)) := by
      rw [List.count_eq_countP, List.countP_map]
      rfl
    rw [this]
    exact List.count_eq_one_of_mem hnodup (List.mem_map_of_mem _ ht)
  simp only [novelMerchantPass]
  rw [countP_flatMap]
  by_cases hm : t.merchant_norm ∈ lb
  · rw [if_pos hm]
    apply List.sum_eq_zero
    intro x hx
    obtain ⟨m, hmn, rfl⟩ := List.mem_map.1 hx
    have hmlb : m ∉ lb := by
      have := (List.mem_filter.1 hmn).2
      simpa using this
    have hne : m ≠ t.merchant_norm := fun e => hmlb (e ▸ hm)
    rw [hcount m, hzero m hne]
  · rw [if_neg hm]
    have hnovel_nodup :
        ((df.map (·.merchant_norm)).dedup.filter
          fun m => !(lb.contains m)).Nodup :=
      (List.nodup_dedup _).filter _
    have hm₀ : t.merchant_norm ∈
        (df.map (·.merchant_norm)).dedup.filter fun m => !(lb.contains m) := by
      rw [List.mem_filter]
      refine ⟨List.mem_dedup.2 (List.mem_map_of_mem _ ht), ?_⟩
      simpa using hm
    apply sum_map_single_one hnovel_nodup hm₀
    intro m hmn
    rw [hcount m]
    by_cases he : m = t.merchant_norm
    · rw [if_pos he, he]
      exact hone
    · rw [if_neg he]
      exact hzero m he

/-- Witness for C5: a merchant with no prior history at all is flagged
exactly once for its trailing transaction. -/
theorem c5_witness :
    ((run_anomaly_detect [⟨"b", "N", "X", -10, 10, 0⟩] 0).filter fun a =>
        a.anomaly_type == "Novel Merchant" &&
          a.txn_id == (StoreTxn.mk "b" "N" "X" (-10) 10 0).txn_id).length =
      if (StoreTxn.mk "b" "N" "X" (-10) 10 0).merchant_norm ∈
          lookbackMerchants [⟨"b", "N", "X", -10, 10, 0⟩] 0 then 0 else 1 :=
  c5_novel_merchant_flagging [⟨"b", "N", "X", -10, 10, 0⟩] 0
    ⟨"b", "N", "X", -10, 10, 0⟩ (by decide) (by decide)

theorem sq_mul_lt_iff_lt_abs_div_sqrt {c v d : ℝ} (hc : 0 ≤ c)
    (hv : 0 < v) : c ^ 2 * v < d ^ 2 ↔ c < |d| / Real.sqrt v := by
  have hs : 0 < Real.sqrt v := Real.sqrt_pos.2 hv
  have hsq : Real.sqrt v ^ 2 = v := Real.sq_sqrt hv.le
  rw [lt_div_iff₀ hs]
  constructor
  · intro h
    nlinarith [abs_nonneg d, sq_abs d, mul_nonneg hc hs.le,
      sq_nonneg (|d| - c * Real.sqrt v), sq_nonneg (|d| + c * Real.sqrt v)]
  · intro h
    nlinarith [abs_nonneg d, sq_abs d, mul_nonneg hc hs.le]

/-- C2: for a category with at least 3 expense observations and nonzero
population variance, the statistical pass flags exactly the observations
whose z-score `|x − mean| / √variance` exceeds 2, with severity High
exactly when the z-score exceeds 3 and Medium otherwise (`2 < z ≤ 3`);
observations with `z ≤ 2` are never flagged, and categories with fewer
than 3 observations or zero variance produce no flags at all. -/
theorem c2_statistical_outlier_threshold (cat : List StoreTxn)
    (h3 : 3 ≤ cat.length)
    (hv : 0 < popVar (cat.map (·.abs_amount))) :
    (statOutliersFor cat =
      (cat.filter fun u => decide (4 * popVar (cat.map (·.abs_amount)) <
        (u.abs_amount - listMean (cat.map (·.abs_amount))) ^ 2)).map fun u =>
        AnomalyRow.mk u.txn_id "Statistical Outlier"
          (if 9 * popVar (cat.map (·.abs_amount)) <
              (u.abs_amount - listMean (cat.map (·.abs_amount))) ^ 2
            then "High" else "Medium")
          "Z-score outlier" "Verify transaction amount and necessity") ∧
    (∀ x : ℚ,
      (4 * popVar (cat.map (·.abs_amount)) <
          (x - listMean (cat.map (·.abs_amount))) ^ 2 ↔
        2 < |(x : ℝ) - (listMean (cat.map (·.abs_amount)) : ℝ)| /
          Real.sqrt (popVar (cat.map (·.abs_amount)) : ℝ)) ∧
      (9 * popVar (cat.map (·.abs_amount)) <
          (x - listMean (cat.map (·.abs_amount))) ^ 2 ↔
        3 < |(x : ℝ) - (listMean (cat.map (·.abs_amount)) : ℝ)| /
          Real.sqrt (popVar (cat.map (·.abs_amount)) : ℝ))) ∧
    (∀ cat' : List StoreTxn, cat'.length < 3 → statOutliersFor cat' = []) ∧
    (∀ cat' : List StoreTxn, popVar (cat'.map (·.abs_amount)) = 0 →
      statOutliersFor cat' = []) := by
  have hvR : (0 : ℝ) < (popVar (cat.map (·.abs_amount)) : ℝ) := by
    exact_mod_cast hv
  refine ⟨?_, ?_, ?_, ?_⟩
  · simp only [statOutliersFor]
    rw [if_neg (not_lt.2 h3), if_pos hv]
  · intro x
    constructor
    · rw [show ((4 : ℚ)) = 2 ^ 2 by norm_num,
        ← sq_mul_lt_iff_lt_abs_div_sqrt (by norm_num : (0:ℝ) ≤ 2) hvR]
      constructor <;> intro h <;> exact_mod_cast h
    · rw [show ((9 : ℚ)) = 3 ^ 2 by norm_num,
        ← sq_mul_lt_iff_lt_abs_div_sqrt (by norm_num : (0:ℝ) ≤ 3) hvR]
      constructor <;> intro h <;> exact_mod_cast h
  · intro cat' h
    simp only [statOutliersFor]
    rw [if_pos h]
  · intro cat' h
    simp only [statOutliersFor]
    by_cases hl : cat'.length < 3
    · rw [if_pos hl]
    · rw [if_neg hl, h, if_neg (lt_irrefl 0)]

/-- Witness for C2: the spec's Dining example `[20, 21, 19, 20, 20, 300]`.
The `300` observation has z-score ≈ 2.3, so it is flagged with severity
Medium and nothing else is flagged. -/
theorem c2_witness :
    statOutliersFor
      [StoreTxn.mk "t1" "m" "Dining" (-20) 20 0,
       StoreTxn.mk "t2" "m" "Dining" (-21) 21 0,
       StoreTxn.mk "t3" "m" "Dining" (-19) 19 0,
       StoreTxn.mk "t4" "m" "Dining" (-20) 20 0,
       StoreTxn.mk "t5" "m" "Dining" (-20) 20 0,
       StoreTxn.mk "t6" "m" "Dining" (-300) 300 0] =
      [AnomalyRow.mk "t6" "Statistical Outlier" "Medium" "Z-score outlier"
        "Verify transaction amount and necessity"] := by
  rw [(c2_statistical_outlier_threshold _ (by decide)
    (by norm_num [popVar, listMean])).1]
  norm_num [popVar, listMean]
